import Mathlib

/-!
Verification development for the electronic diary application (`app.py`).

The web handlers of `app.py` are shallowly embedded as pure functions over
an explicit database state `DB`.  Each SQLAlchemy model becomes a structure,
each table a list of rows, and each Flask request handler a function from
the database (plus the authenticated `current_user` and the request data)
to the new database, the flashed messages and the HTTP-level response.
Time (`datetime.utcnow()`) is modelled as an abstract `Nat` instant `now`
passed to each handler; a handler's several `utcnow()` calls within one
request are modelled as the same instant.  Surrogate ids are drawn from a
single fresh-id counter `next_id`.
-/

namespace App

/-- Row of the `User` model (app.py lines 32-51). -/
structure User where
  id : Nat
  username : String
  email : String
  password_hash : String
  role : String
  first_name : String
  last_name : String
deriving Repr, DecidableEq

/-- Row of the `Program` model (app.py lines 53-61). -/
structure Program where
  id : Nat
  name : String
  subject : String
  organizer_id : Nat
deriving Repr, DecidableEq

/-- Row of the `Enrollment` model (app.py lines 63-66). -/
structure Enrollment where
  id : Nat
  participant_id : Nat
  program_id : Nat
deriving Repr, DecidableEq

/-- Row of the `Task` model (app.py lines 68-79).  `due_date` is an optional
abstract timestamp. -/
structure Task where
  id : Nat
  title : String
  description : String
  due_date : Option Nat
  category : String
  program_id : Nat
  organizer_id : Nat
deriving Repr, DecidableEq

/-- Row of the `Grade` model (app.py lines 81-87). -/
structure Grade where
  id : Nat
  value : Int
  task_id : Nat
  participant_id : Nat
  organizer_id : Nat
  date : Nat
deriving Repr, DecidableEq

/-- Row of the `Notification` model (app.py lines 89-99). -/
structure Notification where
  id : Nat
  user_id : Nat
  message : String
  is_read : Bool
  created_at : Nat
  notification_type : String
  reference_id : Option Nat
deriving Repr, DecidableEq

/-- Row of the `TaskSubmission` model (app.py lines 101-112). -/
structure TaskSubmission where
  id : Nat
  task_id : Nat
  participant_id : Nat
  file_path : Option String
  submission_text : String
  submitted_at : Nat
  is_submitted : Bool
  is_late : Bool
deriving Repr, DecidableEq

/-- Row of the `TaskFeedback` model (app.py lines 114-126). -/
structure TaskFeedback where
  id : Nat
  task_id : Nat
  participant_id : Nat
  organizer_id : Nat
  feedback_text : String
  rating : Int
  created_at : Nat
  updated_at : Nat
deriving Repr, DecidableEq

/-- The whole persistent store: one list of rows per table, plus a single
fresh-id counter standing for the per-table autoincrement ids. -/
structure DB where
  users : List User
  programs : List Program
  enrollments : List Enrollment
  tasks : List Task
  grades : List Grade
  notifications : List Notification
  submissions : List TaskSubmission
  feedbacks : List TaskFeedback
  next_id : Nat
deriving Repr, DecidableEq

/-- HTTP-level outcome of a handler: a redirect (`redirect(url_for(...))`),
a rendered template, or a 404 (`get_or_404` / `first_or_404`). -/
inductive Resp where
  | redirect (target : String)
  | render (page : String)
  | notFound
deriving Repr, DecidableEq

/-- SQLAlchemy updates mutate the row object returned by `.first()`, i.e.
the first row of the table matching the filter; `updateFirst p f l`
applies `f` to exactly the first element of `l` satisfying `p`. -/
def updateFirst (p : α → Bool) (f : α → α) : List α → List α
  | [] => []
  | x :: xs => if p x then f x :: xs else x :: updateFirst p f xs

/-- `create_notification` (app.py lines 173-181): append a new unread
notification row and commit. -/
def create_notification (db : DB) (user_id : Nat) (message : String)
    (notification_type : String) (reference_id : Option Nat) (now : Nat) : DB :=
  { db with
    notifications := db.notifications ++
      [{ id := db.next_id, user_id := user_id, message := message,
         is_read := false, created_at := now,
         notification_type := notification_type, reference_id := reference_id }],
    next_id := db.next_id + 1 }

/-- Models Python's `int(s)` on a decimal string: surrounding whitespace is
trimmed, an optional sign is allowed, the rest must be digits; any other
shape raises `ValueError`, modelled as `none`.  (Underscore digit
separators and non-ASCII digits are not modelled; no claim depends on
them.) -/
def pyInt (s : String) : Option Int :=
  let t := ((s.data.dropWhile (fun c => c.isWhitespace)).reverse.dropWhile
    (fun c => c.isWhitespace)).reverse
  let neg := t.head? == some '-'
  let core := if t.head? == some '-' || t.head? == some '+' then t.drop 1 else t
  if !core.isEmpty && core.all (fun c => c.isDigit) then
    let n : Nat := core.foldl (fun acc c => acc * 10 + (c.toNat - 48)) 0
    some (if neg then -(n : Int) else (n : Int))
  else
    none

/-- Leap-year rule used by the Gregorian calendar. -/
def isLeapYear (y : Nat) : Bool :=
  (y % 4 == 0 && y % 100 != 0) || y % 400 == 0

/-- Number of days in month `m` of year `y`. -/
def daysInMonth (y m : Nat) : Nat :=
  if m == 2 then (if isLeapYear y then 29 else 28)
  else if m == 4 || m == 6 || m == 9 || m == 11 then 30
  else 31

/-- Models `datetime.strptime(s, '%Y-%m-%d')` (app.py line 321): three
dash-separated decimal components forming a valid calendar date; on
success the date is encoded as the abstract timestamp
`y * 10000 + m * 100 + d`, on failure (`ValueError`) the result is
`none`. -/
def strptimeDate (s : String) : Option Nat :=
  match s.splitOn "-" with
  | [ys, ms, ds] =>
    if ys != "" && ys.all (fun c => c.isDigit) &&
       ms != "" && ms.all (fun c => c.isDigit) &&
       ds != "" && ds.all (fun c => c.isDigit) then
      match ys.toNat?, ms.toNat?, ds.toNat? with
      | some y, some m, some d =>
        if 1 ≤ m ∧ m ≤ 12 ∧ 1 ≤ d ∧ d ≤ daysInMonth y m ∧ y ≤ 9999 then
          some (y * 10000 + m * 100 + d)
        else none
      | _, _, _ => none
    else none
  | _ => none

/-- Models the failure condition of wtforms' `DataRequired` validator on a
string field: it fails when the value is empty or whitespace-only
(`not field.data or not field.data.strip()`). -/
def blankString (s : String) : Bool :=
  s.data.all (fun c => c.isWhitespace)

/-- Models werkzeug's `secure_filename` (an external collaborator, excluded
from the core by the spec): the essential guarantee used here is that path
separators are stripped from the client-supplied filename. -/
def secure_filename (s : String) : String :=
  String.mk (s.data.filter (fun c => c != '/' && c != '\\'))

/-- The stored file path built by `submit_task` (app.py lines 526-534):
`None` when no file part was posted or its filename is empty, otherwise
`uploads/assignments/<timestamp>_<sanitized name>`.  The strftime prefix
is modelled as the decimal rendering of the abstract instant `now`. -/
def submissionFilePath (submission_file : Option String) (now : Nat) : Option String :=
  match submission_file with
  | some fname =>
    if fname != "" then
      some ("uploads/assignments/" ++ toString now ++ "_" ++ secure_filename fname)
    else none
  | none => none

/-- The lateness flag computed by `submit_task` (app.py lines 538-541):
`is_late = False; if task.due_date and utcnow() > task.due_date:
is_late = True`. -/
def lateFlag (due_date : Option Nat) (now : Nat) : Bool :=
  match due_date with
  | some d => decide (d < now)
  | none => false

/-- Handler `submit_task` (app.py lines 503-571).  Inputs: the authenticated
`current_user` `cu`, the path parameter `task_id`, the optional uploaded
file's client filename (`none` stands for a missing file part, `some ""`
for an empty filename — both yield no stored file, as in the source), the
optional `submission_text` form field, and the request instant `now`. -/
def submit_task (db : DB) (cu : User) (task_id : Nat)
    (submission_file : Option String) (submission_text_field : Option String)
    (now : Nat) : DB × List String × Resp :=
  match db.tasks.find? (fun t => t.id == task_id) with
  | none => (db, [], Resp.notFound)
  | some task =>
    if cu.role != "participant" then (db, [], Resp.redirect "home")
    else
      match db.enrollments.find?
          (fun e => e.participant_id == cu.id && e.program_id == task.program_id) with
      | none => (db, [], Resp.redirect "home")
      | some _ =>
        let existing := db.submissions.find?
          (fun s => s.task_id == task_id && s.participant_id == cu.id)
        let file_path := submissionFilePath submission_file now
        let submission_text := submission_text_field.getD ""
        let is_late := lateFlag task.due_date now
        let db1 :=
          match existing with
          | some _ =>
            let subs := updateFirst
              (fun s => s.task_id == task_id && s.participant_id == cu.id)
              (fun s => { s with
                submission_text := submission_text,
                file_path := (file_path.orElse (fun _ => s.file_path)),
                is_submitted := true,
                is_late := is_late,
                submitted_at := now })
              db.submissions
            { db with submissions := subs }
          | none =>
            { db with
              submissions := db.submissions ++
                [{ id := db.next_id, task_id := task_id, participant_id := cu.id,
                   file_path := file_path, submission_text := submission_text,
                   submitted_at := now, is_submitted := true, is_late := is_late }],
              next_id := db.next_id + 1 }
        let db2 := create_notification db1 task.organizer_id
          (cu.first_name ++ " " ++ cu.last_name ++
            " отправил ответ на задачу \"" ++ task.title ++ "\"")
          "submission" (some task_id) now
        (db2, ["Задача успешно отправлена!"], Resp.redirect "view_task")

/-- Handler `enroll_participant` (app.py lines 409-440).  The posted
`participant_id` form field is `none` when absent or empty (both falsy in
the source's `if participant_id:`). -/
def enroll_participant (db : DB) (cu : User) (program_id : Nat)
    (participant_id : Option Nat) : DB × List String × Resp :=
  match db.programs.find? (fun p => p.id == program_id) with
  | none => (db, [], Resp.notFound)
  | some program =>
    if cu.role != "organizer" || program.organizer_id != cu.id then
      (db, [], Resp.redirect "home")
    else
      match participant_id with
      | none => (db, [], Resp.redirect "view_program")
      | some pid =>
        match db.users.find? (fun u => u.id == pid && u.role == "participant") with
        | none => (db, ["Участник не найден"], Resp.redirect "view_program")
        | some _ =>
          match db.enrollments.find?
              (fun e => e.participant_id == pid && e.program_id == program_id) with
          | some _ =>
            (db, ["Участник уже записан в эту программу"], Resp.redirect "view_program")
          | none =>
            ({ db with
                enrollments := db.enrollments ++
                  [{ id := db.next_id, participant_id := pid, program_id := program_id }],
                next_id := db.next_id + 1 },
             ["Участник успешно зачислен!"], Resp.redirect "view_program")

/-- The participant list built by `grade_participants` (app.py lines
360-361): the users reached from the enrollments of the task's program. -/
def taskParticipants (db : DB) (task : Task) : List User :=
  (db.enrollments.filter (fun e => e.program_id == task.program_id)).filterMap
    (fun e => db.users.find? (fun u => u.id == e.participant_id))

/-- One upsert of the grade loop (app.py lines 366-382): update the value
of the existing `Grade` row for `(task_id, participant_id)`, or insert a
new row (its `date` column defaulting to `utcnow`). -/
def gradeUpsert (db : DB) (organizer_id task_id pid : Nat) (v : Int) (now : Nat) : DB :=
  if (db.grades.find? (fun g => g.task_id == task_id && g.participant_id == pid)).isSome then
    let gs := updateFirst
      (fun g => g.task_id == task_id && g.participant_id == pid)
      (fun g => { g with value := v })
      db.grades
    { db with grades := gs }
  else
    { db with
      grades := db.grades ++
        [{ id := db.next_id, value := v, task_id := task_id, participant_id := pid,
           organizer_id := organizer_id, date := now }],
      next_id := db.next_id + 1 }

/-- The grade-collection loop of `grade_participants` (app.py lines
363-384): for each participant, a present non-empty `grade_<id>` form value
is converted with `int(...)` — an unparsable value raises `ValueError`,
modelled as `Except.error`, in which case nothing is committed — and
upserted. -/
def gradeLoop (db : DB) (organizer_id task_id : Nat) (ps : List User)
    (form : Nat → Option String) (now : Nat) : Except String DB :=
  match ps with
  | [] => Except.ok db
  | p :: rest =>
    match form p.id with
    | none => gradeLoop db organizer_id task_id rest form now
    | some s =>
      if s == "" then gradeLoop db organizer_id task_id rest form now
      else
        match pyInt s with
        | none => Except.error ("invalid literal for int() with base 10: " ++ s)
        | some v =>
          gradeLoop (gradeUpsert db organizer_id task_id p.id v now)
            organizer_id task_id rest form now

/-- The notification loop of `grade_participants` (app.py lines 386-395):
after the batch commit, each participant with a present non-empty form
value receives one notification of type `grade` embedding the raw value. -/
def notifyGrades (db : DB) (task : Task) (ps : List User)
    (form : Nat → Option String) (now : Nat) : DB :=
  match ps with
  | [] => db
  | p :: rest =>
    match form p.id with
    | none => notifyGrades db task rest form now
    | some s =>
      if s == "" then notifyGrades db task rest form now
      else
        notifyGrades
          (create_notification db p.id
            ("Ваша оценка для задачи \"" ++ task.title ++ "\" была обновлена на " ++ s)
            "grade" (some task.id) now)
          task rest form now

/-- Handler `grade_participants` (app.py lines 351-407).  `isPost` selects
the POST branch; `form` maps a participant id to the raw `grade_<id>` form
value.  An unparsable grade value raises an unhandled `ValueError`
(`Except.error`): no normal response, nothing committed. -/
def grade_participants (db : DB) (cu : User) (task_id : Nat) (isPost : Bool)
    (form : Nat → Option String) (now : Nat) :
    Except String (DB × List String × Resp) :=
  match db.tasks.find? (fun t => t.id == task_id) with
  | none => Except.ok (db, [], Resp.notFound)
  | some task =>
    if cu.role != "organizer" || task.organizer_id != cu.id then
      Except.ok (db, [], Resp.redirect "home")
    else
      let participants := taskParticipants db task
      if isPost then
        match gradeLoop db cu.id task_id participants form now with
        | Except.error e => Except.error e
        | Except.ok db1 =>
          let db2 := notifyGrades db1 task participants form now
          Except.ok (db2, ["Оценки успешно обновлены!"], Resp.redirect "view_program")
      else
        Except.ok (db, [], Resp.render "grade_participants")

/-- The notification fan-out of `create_task` (app.py lines 336-344): one
notification per enrollment of the program. -/
def notifyNewTask (db : DB) (enrs : List Enrollment) (title : String)
    (ref : Nat) (now : Nat) : DB :=
  match enrs with
  | [] => db
  | e :: rest =>
    notifyNewTask
      (create_notification db e.participant_id
        ("Создана новая задача: " ++ title) "task" (some ref) now)
      rest title ref now

/-- Handler `create_task` (app.py lines 310-349).  The form is valid when
the `DataRequired` title is non-blank and the category is one of the
`SelectField` choices; `due_date_data` is the raw string field, parsed with
`strptime` and silently treated as absent on failure (lines 320-323). -/
def create_task (db : DB) (cu : User) (program_id : Nat)
    (title description category : String) (due_date_data : Option String)
    (now : Nat) : DB × List String × Resp :=
  match db.programs.find? (fun p => p.id == program_id) with
  | none => (db, [], Resp.notFound)
  | some program =>
    if cu.role != "organizer" || program.organizer_id != cu.id then
      (db, [], Resp.redirect "home")
    else if blankString title ||
        !(["homework", "test", "project", "quiz", "exam"].contains category) then
      (db, [], Resp.render "create_task")
    else
      let due_date :=
        match due_date_data with
        | some s => if s != "" then strptimeDate s else none
        | none => none
      let task : Task :=
        { id := db.next_id, title := title, description := description,
          due_date := due_date, category := category,
          program_id := program_id, organizer_id := cu.id }
      let db1 := { db with tasks := db.tasks ++ [task], next_id := db.next_id + 1 }
      let db2 := notifyNewTask db1
        (db.enrollments.filter (fun e => e.program_id == program_id)) title task.id now
      (db2, ["Задача успешно создана!"], Resp.redirect "view_program")

/-- Handler `view_notifications` (app.py lines 442-454): fetch the current
user's notifications ordered by `created_at` descending (modelled by an
insertion sort under the ≥-on-`created_at` relation), then mark every
currently-unread notification of that user as read and commit.  Returns
the new store and the displayed list. -/
def view_notifications (db : DB) (cu : User) : DB × List Notification :=
  let notifications :=
    List.insertionSort (fun a b => b.created_at ≤ a.created_at)
      (db.notifications.filter (fun n => n.user_id == cu.id))
  let db1 := { db with
    notifications := db.notifications.map
      (fun n => if n.user_id == cu.id && !n.is_read then { n with is_read := true } else n) }
  (db1, notifications)

/-- Handler `get_unread_notification_count` (app.py lines 456-460): a pure
count of the current user's unread notifications; no row is modified. -/
def get_unread_notification_count (db : DB) (cu : User) : Nat :=
  (db.notifications.filter (fun n => n.user_id == cu.id && !n.is_read)).length

/-- Handler `add_task_feedback` (app.py lines 595-654), POST case.
`rating` is the parse result of the `IntegerField` raw data (`none` for a
missing or non-integer value); `TaskFeedbackForm` validates both fields
with `DataRequired` only, which rejects a blank text and a falsy rating
(`None` or `0`) — there is no range validator on the rating. -/
def add_task_feedback (db : DB) (cu : User) (task_id participant_id : Nat)
    (feedback_text : String) (rating : Option Int) (now : Nat) :
    DB × List String × Resp :=
  match db.tasks.find? (fun t => t.id == task_id) with
  | none => (db, [], Resp.notFound)
  | some task =>
    match db.users.find? (fun u => u.id == participant_id) with
    | none => (db, [], Resp.notFound)
    | some _ =>
      if cu.role != "organizer" || task.organizer_id != cu.id then
        (db, [], Resp.redirect "home")
      else
        match db.submissions.find?
            (fun s => s.task_id == task_id && s.participant_id == participant_id) with
        | none => (db, [], Resp.notFound)
        | some _ =>
          match rating with
          | none => (db, [], Resp.render "add_task_feedback")
          | some r =>
            if blankString feedback_text || r == 0 then
              (db, [], Resp.render "add_task_feedback")
            else
              let db1 :=
                if (db.feedbacks.find?
                    (fun f => f.task_id == task_id && f.participant_id == participant_id)).isSome then
                  let fbs := updateFirst
                    (fun f => f.task_id == task_id && f.participant_id == participant_id)
                    (fun f => { f with feedback_text := feedback_text, rating := r,
                                       updated_at := now })
                    db.feedbacks
                  { db with feedbacks := fbs }
                else
                  { db with
                    feedbacks := db.feedbacks ++
                      [{ id := db.next_id, task_id := task_id,
                         participant_id := participant_id, organizer_id := cu.id,
                         feedback_text := feedback_text, rating := r,
                         created_at := now, updated_at := now }],
                    next_id := db.next_id + 1 }
              let db2 := create_notification db1 participant_id
                ("Организатор оставил отзыв на вашу задачу \"" ++ task.title ++ "\"")
                "feedback" (some task_id) now
              (db2, ["Отзыв успешно сохранен!"], Resp.redirect "view_task_submissions")

/-- The query `TaskSubmission.query.filter_by(task_id=..., participant_id=...)
.first()` used by `submit_task`, `view_task` and `add_task_feedback`. -/
def subFind (db : DB) (task_id pid : Nat) : Option TaskSubmission :=
  db.submissions.find? (fun s => s.task_id == task_id && s.participant_id == pid)

/-- Number of `TaskSubmission` rows stored for a `(task_id, participant_id)`
pair. -/
def subCount (db : DB) (task_id pid : Nat) : Nat :=
  (db.submissions.filter (fun s => s.task_id == task_id && s.participant_id == pid)).length

/-- The query `Enrollment.query.filter_by(participant_id=..., program_id=...)
.first()` used by `enroll_participant` and the access checks. -/
def enrollFind (db : DB) (pid program_id : Nat) : Option Enrollment :=
  db.enrollments.find? (fun e => e.participant_id == pid && e.program_id == program_id)

/-- Number of `Enrollment` rows stored for a `(participant_id, program_id)`
pair. -/
def enrollCount (db : DB) (pid program_id : Nat) : Nat :=
  (db.enrollments.filter (fun e => e.participant_id == pid && e.program_id == program_id)).length

/-- The query `Grade.query.filter_by(task_id=..., participant_id=...).first()`
used by the grading loop. -/
def gradeFind (db : DB) (task_id pid : Nat) : Option Grade :=
  db.grades.find? (fun g => g.task_id == task_id && g.participant_id == pid)

/-- Number of `Grade` rows stored for a `(task_id, participant_id)` pair. -/
def gradeCount (db : DB) (task_id pid : Nat) : Nat :=
  (db.grades.filter (fun g => g.task_id == task_id && g.participant_id == pid)).length

/-- The query `TaskFeedback.query.filter_by(task_id=..., participant_id=...)
.first()` used by `add_task_feedback`. -/
def fbFind (db : DB) (task_id pid : Nat) : Option TaskFeedback :=
  db.feedbacks.find? (fun f => f.task_id == task_id && f.participant_id == pid)

/-! Concrete scenario data used to instantiate the theorems: one organizer,
one participant, one program owned by the organizer, one task with a due
date, and the participant enrolled in the program. -/

/-- Scenario organizer. -/
def orgW : User :=
  { id := 1, username := "org", email := "org@example.com", password_hash := "h1",
    role := "organizer", first_name := "Анна", last_name := "Иванова" }

/-- Scenario participant. -/
def partW : User :=
  { id := 2, username := "stud", email := "stud@example.com", password_hash := "h2",
    role := "participant", first_name := "Пётр", last_name := "Петров" }

/-- Scenario program, owned by the scenario organizer. -/
def progW : Program :=
  { id := 3, name := "Алгебра", subject := "Математика", organizer_id := 1 }

/-- Scenario task with due date 100. -/
def taskW : Task :=
  { id := 4, title := "ДЗ 1", description := "Решить задачи", due_date := some 100,
    category := "homework", program_id := 3, organizer_id := 1 }

/-- Scenario enrollment of the participant in the program. -/
def enrW : Enrollment := { id := 5, participant_id := 2, program_id := 3 }

/-- Scenario store: the four rows above and an empty ledger. -/
def dbW : DB :=
  { users := [orgW, partW], programs := [progW], enrollments := [enrW], tasks := [taskW],
    grades := [], notifications := [], submissions := [], feedbacks := [], next_id := 6 }

/-- Scenario store without the enrollment, for exercising `enroll_participant`. -/
def dbNoEnrW : DB := { dbW with enrollments := [] }

/-- Scenario submission of the participant for the task. -/
def subW : TaskSubmission :=
  { id := 6, task_id := 4, participant_id := 2, file_path := none,
    submission_text := "ответ", submitted_at := 50, is_submitted := true, is_late := false }

/-- Scenario store extended with the submission. -/
def dbSubW : DB := { dbW with submissions := [subW], next_id := 7 }

/-! ### Generic lemmas about `updateFirst` and row counting -/

/-- Updating the first match in place commutes with `find?` for the same
predicate, provided the update preserves the predicate. -/
theorem find?_updateFirst {α : Type} (p : α → Bool) (f : α → α) (l : List α)
    (hf : ∀ x, p x = true → p (f x) = true) :
    (updateFirst p f l).find? p = (l.find? p).map f := by
  induction l with
  | nil => simp [updateFirst]
  | cons x xs ih =>
    cases hx : p x with
    | true => simp [updateFirst, hx, hf x hx]
    | false => simp [updateFirst, hx, ih]

/-- Updating the first `p`-match in place preserves the number of `q`-matches
whenever the update does not change `q`-membership of the updated row. -/
theorem length_filter_updateFirst {α : Type} (p q : α → Bool) (f : α → α) (l : List α)
    (hf : ∀ x, p x = true → q (f x) = q x) :
    ((updateFirst p f l).filter q).length = (l.filter q).length := by
  induction l with
  | nil => rfl
  | cons x xs ih =>
    cases hx : p x with
    | true =>
      cases hqx : q x with
      | true => simp [updateFirst, hx, List.filter_cons, hf x hx, hqx]
      | false => simp [updateFirst, hx, List.filter_cons, hf x hx, hqx]
    | false =>
      cases hqx : q x with
      | true => simp [updateFirst, hx, List.filter_cons, hqx, ih]
      | false => simp [updateFirst, hx, List.filter_cons, hqx, ih]

/-- A `first()` query returns no row exactly when the pair has zero rows. -/
theorem find?_eq_none_iff_length {α : Type} (p : α → Bool) (l : List α) :
    l.find? p = none ↔ (l.filter p).length = 0 := by
  simp [List.find?_eq_none, List.length_eq_zero, List.filter_eq_nil_iff]

/-! ### `submit_task`: frame and step lemmas -/

/-- `submit_task` writes only the submissions table, the notifications table
and the id counter; every other table is untouched. -/
theorem submit_task_frame (db : DB) (cu : User) (task_id : Nat)
    (file text : Option String) (now : Nat) :
    (submit_task db cu task_id file text now).1.tasks = db.tasks ∧
    (submit_task db cu task_id file text now).1.enrollments = db.enrollments ∧
    (submit_task db cu task_id file text now).1.users = db.users ∧
    (submit_task db cu task_id file text now).1.programs = db.programs ∧
    (submit_task db cu task_id file text now).1.grades = db.grades ∧
    (submit_task db cu task_id file text now).1.feedbacks = db.feedbacks := by
  unfold submit_task create_notification
  split
  · exact ⟨rfl, rfl, rfl, rfl, rfl, rfl⟩
  · split
    · exact ⟨rfl, rfl, rfl, rfl, rfl, rfl⟩
    · split
      · exact ⟨rfl, rfl, rfl, rfl, rfl, rfl⟩
      · dsimp only
        split
        · exact ⟨rfl, rfl, rfl, rfl, rfl, rfl⟩
        · exact ⟨rfl, rfl, rfl, rfl, rfl, rfl⟩

/-- After a successful `submit_task`, the pair's `first()` row is the
upserted row: the previous row overwritten as in app.py lines 543-548, or
the freshly inserted row of lines 549-558. -/
theorem submit_task_subFind (db : DB) (cu : User) (task_id : Nat)
    (file text : Option String) (now : Nat) (task : Task) (e : Enrollment)
    (hT : db.tasks.find? (fun t => t.id == task_id) = some task)
    (hrole : cu.role = "participant")
    (hEnr : db.enrollments.find?
      (fun x => x.participant_id == cu.id && x.program_id == task.program_id) = some e) :
    subFind (submit_task db cu task_id file text now).1 task_id cu.id =
      some (match subFind db task_id cu.id with
        | some s0 =>
          { s0 with
            submission_text := text.getD "",
            file_path := ((submissionFilePath file now).orElse (fun _ => s0.file_path)),
            is_submitted := true,
            is_late := lateFlag task.due_date now,
            submitted_at := now }
        | none =>
          { id := db.next_id, task_id := task_id, participant_id := cu.id,
            file_path := submissionFilePath file now,
            submission_text := text.getD "",
            submitted_at := now, is_submitted := true,
            is_late := lateFlag task.due_date now }) := by
  have hbne : (cu.role != "participant") = false := by simp [hrole]
  cases hEx : db.submissions.find?
      (fun s => s.task_id == task_id && s.participant_id == cu.id) with
  | some s0 =>
    simp only [submit_task, subFind, create_notification, hT, hbne, hEnr, hEx,
      Bool.false_eq_true, if_false]
    rw [find?_updateFirst]
    · rw [hEx]
      rfl
    · intro x hx
      simpa using hx
  | none =>
    simp only [submit_task, subFind, create_notification, hT, hbne, hEnr, hEx,
      Bool.false_eq_true, if_false]
    rw [List.find?_append, hEx]
    simp

/-- A successful `submit_task` leaves exactly one submission row for the
pair whenever the store held at most one before. -/
theorem submit_task_subCount (db : DB) (cu : User) (task_id : Nat)
    (file text : Option String) (now : Nat) (task : Task) (e : Enrollment)
    (hT : db.tasks.find? (fun t => t.id == task_id) = some task)
    (hrole : cu.role = "participant")
    (hEnr : db.enrollments.find?
      (fun x => x.participant_id == cu.id && x.program_id == task.program_id) = some e)
    (hCount : subCount db task_id cu.id ≤ 1) :
    subCount (submit_task db cu task_id file text now).1 task_id cu.id = 1 := by
  have hbne : (cu.role != "participant") = false := by simp [hrole]
  unfold subCount at hCount ⊢
  cases hEx : db.submissions.find?
      (fun s => s.task_id == task_id && s.participant_id == cu.id) with
  | some s0 =>
    have h0 : (db.submissions.filter
        (fun s => s.task_id == task_id && s.participant_id == cu.id)).length ≠ 0 := by
      intro h
      rw [← find?_eq_none_iff_length] at h
      rw [h] at hEx
      exact Option.noConfusion hEx
    simp only [submit_task, create_notification, hT, hbne, hEnr, hEx,
      Bool.false_eq_true, if_false]
    rw [length_filter_updateFirst]
    · omega
    · intro x hx
      rfl
  | none =>
    have h0 : (db.submissions.filter
        (fun s => s.task_id == task_id && s.participant_id == cu.id)).length = 0 :=
      (find?_eq_none_iff_length _ _).mp hEx
    simp only [submit_task, create_notification, hT, hbne, hEnr, hEx,
      Bool.false_eq_true, if_false]
    rw [List.filter_append, List.length_append, h0]
    simp

/-- A successful `submit_task` flashes the success message and appends
exactly one notification, addressed to the task's organizer, of type
`submission`, referencing the task (app.py lines 562-570). -/
theorem submit_task_success (db : DB) (cu : User) (task_id : Nat)
    (file text : Option String) (now : Nat) (task : Task) (e : Enrollment)
    (hT : db.tasks.find? (fun t => t.id == task_id) = some task)
    (hrole : cu.role = "participant")
    (hEnr : db.enrollments.find?
      (fun x => x.participant_id == cu.id && x.program_id == task.program_id) = some e) :
    (submit_task db cu task_id file text now).2.1 = ["Задача успешно отправлена!"] ∧
    (submit_task db cu task_id file text now).2.2 = Resp.redirect "view_task" ∧
    ∃ n : Notification,
      (submit_task db cu task_id file text now).1.notifications = db.notifications ++ [n] ∧
      n.user_id = task.organizer_id ∧ n.notification_type = "submission" ∧
      n.reference_id = some task_id ∧ n.is_read = false ∧ n.created_at = now := by
  have hbne : (cu.role != "participant") = false := by simp [hrole]
  cases hEx : db.submissions.find?
      (fun s => s.task_id == task_id && s.participant_id == cu.id) with
  | some s0 =>
    simp only [submit_task, create_notification, hT, hbne, hEnr, hEx,
      Bool.false_eq_true, if_false]
    exact ⟨trivial, trivial, _, rfl, rfl, rfl, rfl, rfl, rfl⟩
  | none =>
    simp only [submit_task, create_notification, hT, hbne, hEnr, hEx,
      Bool.false_eq_true, if_false]
    exact ⟨trivial, trivial, _, rfl, rfl, rfl, rfl, rfl, rfl⟩

/-- C1: for every submit of a submission to a task, if the task has a due
date `D` and the submission instant is strictly after `D` the stored
submission has `is_late = true`; at or before `D` it has
`is_late = false`; and if the task has no due date it has
`is_late = false` regardless of the submission instant. -/
theorem C1_submission_lateness (db : DB) (cu : User) (task_id : Nat)
    (file text : Option String) (now : Nat) (task : Task) (e : Enrollment)
    (hT : db.tasks.find? (fun t => t.id == task_id) = some task)
    (hrole : cu.role = "participant")
    (hEnr : db.enrollments.find?
      (fun x => x.participant_id == cu.id && x.program_id == task.program_id) = some e) :
    ∃ s', subFind (submit_task db cu task_id file text now).1 task_id cu.id = some s' ∧
      (∀ d, task.due_date = some d → d < now → s'.is_late = true) ∧
      (∀ d, task.due_date = some d → now ≤ d → s'.is_late = false) ∧
      (task.due_date = none → s'.is_late = false) := by
  refine ⟨_, submit_task_subFind db cu task_id file text now task e hT hrole hEnr, ?_, ?_, ?_⟩
  · intro d hd hlt
    cases hEx : subFind db task_id cu.id <;> simp [hEx, lateFlag, hd, hlt]
  · intro d hd hle
    have hnlt : ¬ (d < now) := Nat.not_lt.mpr hle
    cases hEx : subFind db task_id cu.id <;> simp [hEx, lateFlag, hd, hnlt]
  · intro hd
    cases hEx : subFind db task_id cu.id <;> simp [hEx, lateFlag, hd]

/-- Witness for C1: in the concrete scenario (task due at instant 100) a
submission at instant 150 is stored with `is_late = true`. -/
theorem C1_submission_lateness_witness :
    dbW.tasks.find? (fun t => t.id == 4) = some taskW ∧
    partW.role = "participant" ∧
    dbW.enrollments.find?
      (fun x => x.participant_id == partW.id && x.program_id == taskW.program_id) = some enrW ∧
    (∃ s', subFind (submit_task dbW partW 4 none (some "текст") 150).1 4 partW.id = some s' ∧
      (∀ d, taskW.due_date = some d → d < 150 → s'.is_late = true) ∧
      (∀ d, taskW.due_date = some d → 150 ≤ d → s'.is_late = false) ∧
      (taskW.due_date = none → s'.is_late = false)) :=
  ⟨by decide, by decide, by decide,
    C1_submission_lateness dbW partW 4 none (some "текст") 150 taskW enrW
      (by decide) (by decide) (by decide)⟩

/-- C2: submitting twice for the same `(task, participant)` pair leaves
exactly one submission row; after the second submit the row carries the
second call's text and timestamp, `is_submitted = true`, and the file path
is replaced only if the second call provided a file, otherwise the file
path resulting from the first call is retained. -/
theorem C2_submit_upsert (db : DB) (cu : User) (task_id : Nat)
    (file1 text1 : Option String) (now1 : Nat)
    (file2 text2 : Option String) (now2 : Nat) (task : Task) (e : Enrollment)
    (hT : db.tasks.find? (fun t => t.id == task_id) = some task)
    (hrole : cu.role = "participant")
    (hEnr : db.enrollments.find?
      (fun x => x.participant_id == cu.id && x.program_id == task.program_id) = some e)
    (hCount : subCount db task_id cu.id ≤ 1) :
    subCount (submit_task (submit_task db cu task_id file1 text1 now1).1
        cu task_id file2 text2 now2).1 task_id cu.id = 1 ∧
    ∃ s2, subFind (submit_task (submit_task db cu task_id file1 text1 now1).1
        cu task_id file2 text2 now2).1 task_id cu.id = some s2 ∧
      s2.submission_text = text2.getD "" ∧
      s2.submitted_at = now2 ∧
      s2.is_submitted = true ∧
      (∀ fname, file2 = some fname → fname ≠ "" →
        s2.file_path =
          some ("uploads/assignments/" ++ toString now2 ++ "_" ++ secure_filename fname)) ∧
      (file2 = none →
        ∀ s1, subFind (submit_task db cu task_id file1 text1 now1).1 task_id cu.id = some s1 →
          s2.file_path = s1.file_path) := by
  obtain ⟨hTk, hEn, _, _, _, _⟩ := submit_task_frame db cu task_id file1 text1 now1
  have hT1 : (submit_task db cu task_id file1 text1 now1).1.tasks.find?
      (fun t => t.id == task_id) = some task := by rw [hTk]; exact hT
  have hEnr1 : (submit_task db cu task_id file1 text1 now1).1.enrollments.find?
      (fun x => x.participant_id == cu.id && x.program_id == task.program_id) = some e := by
    rw [hEn]; exact hEnr
  have hC1 : subCount (submit_task db cu task_id file1 text1 now1).1 task_id cu.id = 1 :=
    submit_task_subCount db cu task_id file1 text1 now1 task e hT hrole hEnr hCount
  have hC2 : subCount (submit_task (submit_task db cu task_id file1 text1 now1).1
      cu task_id file2 text2 now2).1 task_id cu.id = 1 :=
    submit_task_subCount _ cu task_id file2 text2 now2 task e hT1 hrole hEnr1 (by omega)
  refine ⟨hC2, ?_⟩
  have hF1 := submit_task_subFind db cu task_id file1 text1 now1 task e hT hrole hEnr
  have hF2 := submit_task_subFind (submit_task db cu task_id file1 text1 now1).1
    cu task_id file2 text2 now2 task e hT1 hrole hEnr1
  rw [hF1] at hF2
  refine ⟨_, hF2, rfl, rfl, rfl, ?_, ?_⟩
  · intro fname hf hne
    subst hf
    simp [submissionFilePath, hne]
  · intro hf s1 hs1
    subst hf
    rw [hF1] at hs1
    have hx : _ = s1 := Option.some.inj hs1
    rw [← hx]
    simp [submissionFilePath]

/-- Witness for C2: two concrete submits, the first with a file, the second
without; the stored row keeps the first file path and takes the second
text and timestamp. -/
theorem C2_submit_upsert_witness :
    dbW.tasks.find? (fun t => t.id == 4) = some taskW ∧
    partW.role = "participant" ∧
    dbW.enrollments.find?
      (fun x => x.participant_id == partW.id && x.program_id == taskW.program_id) = some enrW ∧
    subCount dbW 4 partW.id ≤ 1 ∧
    (subCount (submit_task (submit_task dbW partW 4 (some "a.txt") (some "первый") 90).1
        partW 4 none (some "второй") 150).1 4 partW.id = 1 ∧
    ∃ s2, subFind (submit_task (submit_task dbW partW 4 (some "a.txt") (some "первый") 90).1
        partW 4 none (some "второй") 150).1 4 partW.id = some s2 ∧
      s2.submission_text = (some "второй").getD "" ∧
      s2.submitted_at = 150 ∧
      s2.is_submitted = true ∧
      (∀ fname, (none : Option String) = some fname → fname ≠ "" →
        s2.file_path =
          some ("uploads/assignments/" ++ toString 150 ++ "_" ++ secure_filename fname)) ∧
      ((none : Option String) = none →
        ∀ s1, subFind (submit_task dbW partW 4 (some "a.txt") (some "первый") 90).1
            4 partW.id = some s1 →
          s2.file_path = s1.file_path)) :=
  ⟨by decide, by decide, by decide, by decide,
    C2_submit_upsert dbW partW 4 (some "a.txt") (some "первый") 90 none (some "второй") 150
      taskW enrW (by decide) (by decide) (by decide) (by decide)⟩

/-- C10: an empty submission is accepted — with empty text and no file the
submit still succeeds, stores a row with empty `submission_text`,
`is_submitted = true` and a refreshed `submitted_at`, and emits a
`submission` notification to the task's organizer. -/
theorem C10_empty_submission_accepted (db : DB) (cu : User) (task_id : Nat)
    (now : Nat) (task : Task) (e : Enrollment)
    (hT : db.tasks.find? (fun t => t.id == task_id) = some task)
    (hrole : cu.role = "participant")
    (hEnr : db.enrollments.find?
      (fun x => x.participant_id == cu.id && x.program_id == task.program_id) = some e) :
    (∃ s', subFind (submit_task db cu task_id none (some "") now).1 task_id cu.id = some s' ∧
      s'.submission_text = "" ∧ s'.is_submitted = true ∧ s'.submitted_at = now) ∧
    (submit_task db cu task_id none (some "") now).2.1 = ["Задача успешно отправлена!"] ∧
    ∃ n : Notification,
      (submit_task db cu task_id none (some "") now).1.notifications =
        db.notifications ++ [n] ∧
      n.user_id = task.organizer_id ∧ n.notification_type = "submission" ∧
      n.reference_id = some task_id := by
  obtain ⟨hfl, _, n, hnot, hu, hty, href, _, _⟩ :=
    submit_task_success db cu task_id none (some "") now task e hT hrole hEnr
  refine ⟨?_, hfl, n, hnot, hu, hty, href⟩
  refine ⟨_, submit_task_subFind db cu task_id none (some "") now task e hT hrole hEnr,
    ?_, ?_, ?_⟩ <;>
    cases hEx : subFind db task_id cu.id <;> simp [hEx]

/-- Witness for C10: the concrete participant submits empty text and no
file; the row is stored and the organizer is notified. -/
theorem C10_empty_submission_accepted_witness :
    dbW.tasks.find? (fun t => t.id == 4) = some taskW ∧
    partW.role = "participant" ∧
    dbW.enrollments.find?
      (fun x => x.participant_id == partW.id && x.program_id == taskW.program_id) = some enrW ∧
    ((∃ s', subFind (submit_task dbW partW 4 none (some "") 150).1 4 partW.id = some s' ∧
      s'.submission_text = "" ∧ s'.is_submitted = true ∧ s'.submitted_at = 150) ∧
    (submit_task dbW partW 4 none (some "") 150).2.1 = ["Задача успешно отправлена!"] ∧
    ∃ n : Notification,
      (submit_task dbW partW 4 none (some "") 150).1.notifications =
        dbW.notifications ++ [n] ∧
      n.user_id = taskW.organizer_id ∧ n.notification_type = "submission" ∧
      n.reference_id = some 4) :=
  ⟨by decide, by decide, by decide,
    C10_empty_submission_accepted dbW partW 4 150 taskW enrW
      (by decide) (by decide) (by decide)⟩

/-! ### `enroll_participant`: step lemmas -/

/-- When the pair already has an enrollment row, `enroll_participant`
changes nothing and flashes the already-enrolled conflict message
(app.py lines 435-436). -/
theorem enroll_participant_conflict (db : DB) (cu : User) (program_id pid : Nat)
    (program : Program) (u : User) (e : Enrollment)
    (hP : db.programs.find? (fun p => p.id == program_id) = some program)
    (hrole : cu.role = "organizer") (hown : program.organizer_id = cu.id)
    (hU : db.users.find? (fun x => x.id == pid && x.role == "participant") = some u)
    (hE : enrollFind db pid program_id = some e) :
    enroll_participant db cu program_id (some pid) =
      (db, ["Участник уже записан в эту программу"], Resp.redirect "view_program") := by
  have hg : (cu.role != "organizer" || program.organizer_id != cu.id) = false := by
    simp [hrole, hown]
  unfold enrollFind at hE
  simp [enroll_participant, hP, hg, hU, hE]

/-- When the pair has no enrollment row, `enroll_participant` inserts
exactly one new row for it (app.py lines 427-434). -/
theorem enroll_participant_insert (db : DB) (cu : User) (program_id pid : Nat)
    (program : Program) (u : User)
    (hP : db.programs.find? (fun p => p.id == program_id) = some program)
    (hrole : cu.role = "organizer") (hown : program.organizer_id = cu.id)
    (hU : db.users.find? (fun x => x.id == pid && x.role == "participant") = some u)
    (hE : enrollFind db pid program_id = none) :
    enroll_participant db cu program_id (some pid) =
      ({ db with
          enrollments := db.enrollments ++
            [{ id := db.next_id, participant_id := pid, program_id := program_id }],
          next_id := db.next_id + 1 },
       ["Участник успешно зачислен!"], Resp.redirect "view_program") := by
  have hg : (cu.role != "organizer" || program.organizer_id != cu.id) = false := by
    simp [hrole, hown]
  unfold enrollFind at hE
  simp [enroll_participant, hP, hg, hU, hE]

/-- Appending one enrollment row adds one to the count of its own pair and
leaves every other pair's count unchanged. -/
theorem enrollCount_append (db : DB) (row : Enrollment) (nid p q : Nat) :
    enrollCount { db with enrollments := db.enrollments ++ [row], next_id := nid } p q =
      enrollCount db p q +
        (if (row.participant_id == p && row.program_id == q) = true then 1 else 0) := by
  unfold enrollCount
  rw [List.filter_append, List.length_append]
  cases h : (row.participant_id == p && row.program_id == q) <;> simp [h]

/-- C4: enrolling the same `(participant, program)` pair twice leaves
exactly one enrollment row, the second call reports the already-enrolled
conflict, and each `enroll_participant` call preserves the
at-most-one-enrollment-per-pair invariant. -/
theorem C4_enroll_unique (db : DB) (cu : User) (program_id pid : Nat)
    (program : Program) (u : User)
    (hP : db.programs.find? (fun p => p.id == program_id) = some program)
    (hrole : cu.role = "organizer") (hown : program.organizer_id = cu.id)
    (hU : db.users.find? (fun x => x.id == pid && x.role == "participant") = some u)
    (hCount : enrollCount db pid program_id ≤ 1) :
    enrollCount (enroll_participant (enroll_participant db cu program_id (some pid)).1
      cu program_id (some pid)).1 pid program_id = 1 ∧
    (enroll_participant (enroll_participant db cu program_id (some pid)).1
      cu program_id (some pid)).2.1 = ["Участник уже записан в эту программу"] ∧
    (∀ p q, enrollCount db p q ≤ 1 →
      enrollCount (enroll_participant db cu program_id (some pid)).1 p q ≤ 1) := by
  cases hE : enrollFind db pid program_id with
  | none =>
    have h0 : enrollCount db pid program_id = 0 := by
      unfold enrollCount
      exact (find?_eq_none_iff_length _ _).mp hE
    rw [enroll_participant_insert db cu program_id pid program u hP hrole hown hU hE]
    have hP1 : ({ db with
        enrollments := db.enrollments ++
          [{ id := db.next_id, participant_id := pid, program_id := program_id }],
        next_id := db.next_id + 1 } : DB).programs.find?
        (fun p => p.id == program_id) = some program := hP
    have hU1 : ({ db with
        enrollments := db.enrollments ++
          [{ id := db.next_id, participant_id := pid, program_id := program_id }],
        next_id := db.next_id + 1 } : DB).users.find?
        (fun x => x.id == pid && x.role == "participant") = some u := hU
    have hE1 : enrollFind { db with
        enrollments := db.enrollments ++
          [{ id := db.next_id, participant_id := pid, program_id := program_id }],
        next_id := db.next_id + 1 } pid program_id =
        some { id := db.next_id, participant_id := pid, program_id := program_id } := by
      unfold enrollFind at hE ⊢
      rw [List.find?_append, hE]
      simp
    rw [enroll_participant_conflict _ cu program_id pid program u _ hP1 hrole hown hU1 hE1]
    refine ⟨?_, rfl, ?_⟩
    · rw [enrollCount_append, h0]
      simp
    · intro p q hpq
      rw [enrollCount_append]
      cases hb : (pid == p && program_id == q) with
      | true =>
        have hpq2 : pid = p ∧ program_id = q := by simpa using hb
        rw [← hpq2.1, ← hpq2.2, h0]
        simp
      | false => simpa using hpq
  | some e0 =>
    have h1 : enrollCount db pid program_id ≠ 0 := by
      unfold enrollCount
      intro h
      rw [← find?_eq_none_iff_length] at h
      unfold enrollFind at hE
      rw [h] at hE
      exact Option.noConfusion hE
    rw [enroll_participant_conflict db cu program_id pid program u e0 hP hrole hown hU hE]
    rw [enroll_participant_conflict db cu program_id pid program u e0 hP hrole hown hU hE]
    refine ⟨?_, rfl, fun p q hpq => hpq⟩
    show enrollCount db pid program_id = 1
    omega

/-- Witness for C4: enrolling the concrete participant twice in the
scenario store that has no enrollment yet. -/
theorem C4_enroll_unique_witness :
    dbNoEnrW.programs.find? (fun p => p.id == 3) = some progW ∧
    orgW.role = "organizer" ∧
    progW.organizer_id = orgW.id ∧
    dbNoEnrW.users.find? (fun x => x.id == 2 && x.role == "participant") = some partW ∧
    enrollCount dbNoEnrW 2 3 ≤ 1 ∧
    (enrollCount (enroll_participant (enroll_participant dbNoEnrW orgW 3 (some 2)).1
      orgW 3 (some 2)).1 2 3 = 1 ∧
    (enroll_participant (enroll_participant dbNoEnrW orgW 3 (some 2)).1
      orgW 3 (some 2)).2.1 = ["Участник уже записан в эту программу"] ∧
    (∀ p q, enrollCount dbNoEnrW p q ≤ 1 →
      enrollCount (enroll_participant dbNoEnrW orgW 3 (some 2)).1 p q ≤ 1)) :=
  ⟨by decide, by decide, by decide, by decide, by decide,
    C4_enroll_unique dbNoEnrW orgW 3 2 progW partW
      (by decide) (by decide) (by decide) (by decide) (by decide)⟩

/-! ### `grade_participants`: step lemmas -/

/-- `gradeUpsert` touches only the grades table and the id counter. -/
theorem gradeUpsert_frame (db : DB) (oid task_id pid : Nat) (v : Int) (now : Nat) :
    (gradeUpsert db oid task_id pid v now).tasks = db.tasks ∧
    (gradeUpsert db oid task_id pid v now).users = db.users ∧
    (gradeUpsert db oid task_id pid v now).enrollments = db.enrollments := by
  unfold gradeUpsert
  split
  · exact ⟨rfl, rfl, rfl⟩
  · exact ⟨rfl, rfl, rfl⟩

/-- Upserting a grade for a pair that held at most one row leaves exactly
one row for it, holding the upserted value. -/
theorem gradeUpsert_pair (db : DB) (oid task_id pid : Nat) (v : Int) (now : Nat)
    (hCount : gradeCount db task_id pid ≤ 1) :
    gradeCount (gradeUpsert db oid task_id pid v now) task_id pid = 1 ∧
    ∃ g, gradeFind (gradeUpsert db oid task_id pid v now) task_id pid = some g ∧
      g.value = v := by
  unfold gradeCount gradeFind gradeUpsert
  unfold gradeCount at hCount
  cases hEx : db.grades.find? (fun g => g.task_id == task_id && g.participant_id == pid) with
  | some g0 =>
    have h1 : (db.grades.filter
        (fun g => g.task_id == task_id && g.participant_id == pid)).length ≠ 0 := by
      intro h
      rw [← find?_eq_none_iff_length] at h
      rw [h] at hEx
      exact Option.noConfusion hEx
    simp only [hEx, Option.isSome_some, if_true]
    constructor
    · rw [length_filter_updateFirst]
      · omega
      · intro x hx
        rfl
    · rw [find?_updateFirst]
      · rw [hEx]
        exact ⟨_, rfl, rfl⟩
      · intro x hx
        simpa using hx
  | none =>
    have h0 : (db.grades.filter
        (fun g => g.task_id == task_id && g.participant_id == pid)).length = 0 :=
      (find?_eq_none_iff_length _ _).mp hEx
    simp only [hEx, Option.isSome_none, Bool.false_eq_true, if_false]
    constructor
    · rw [List.filter_append, List.length_append, h0]
      simp
    · rw [List.find?_append, hEx]
      simp

/-- The grading loop run with a single-entry form (only participant id `p`
carries the raw value `s`, which parses to `v`) commits successfully,
upserts exactly the `(task_id, p)` pair when some listed participant has id
`p`, and does nothing otherwise. -/
theorem gradeLoop_single (oid task_id p : Nat) (s : String) (v : Int) (now : Nat)
    (hs : (s == "") = false) (hv : pyInt s = some v) :
    ∀ (ps : List User) (db : DB), gradeCount db task_id p ≤ 1 →
      ∃ db', gradeLoop db oid task_id ps (fun i => if i == p then some s else none) now
          = Except.ok db' ∧
        gradeCount db' task_id p ≤ 1 ∧
        db'.tasks = db.tasks ∧ db'.users = db.users ∧ db'.enrollments = db.enrollments ∧
        ((∃ q ∈ ps, q.id = p) →
          gradeCount db' task_id p = 1 ∧
          ∃ g, gradeFind db' task_id p = some g ∧ g.value = v) ∧
        ((¬ ∃ q ∈ ps, q.id = p) → db' = db) := by
  intro ps
  induction ps with
  | nil =>
    intro db hC
    exact ⟨db, rfl, hC, rfl, rfl, rfl, by simp, fun _ => rfl⟩
  | cons q rest ih =>
    intro db hC
    cases hq : (q.id == p) with
    | false =>
      obtain ⟨db', hrun, hC', hT', hU', hE', hmem, hnmem⟩ := ih db hC
      refine ⟨db', ?_, hC', hT', hU', hE', ?_, ?_⟩
      · simp only [gradeLoop, hq, Bool.false_eq_true, if_false]
        exact hrun
      · rintro ⟨q', hq', hqp⟩
        rcases List.mem_cons.mp hq' with h | h
        · subst h
          rw [hqp] at hq
          simp at hq
        · exact hmem ⟨q', h, hqp⟩
      · intro hn
        apply hnmem
        rintro ⟨q', hq', hqp⟩
        exact hn ⟨q', List.mem_cons_of_mem _ hq', hqp⟩
    | true =>
      have hqp : q.id = p := by simpa using hq
      obtain ⟨hc1, g, hg, hgv⟩ := gradeUpsert_pair db oid task_id p v now hC
      obtain ⟨db', hrun, hC', hT', hU', hE', hmem, hnmem⟩ :=
        ih (gradeUpsert db oid task_id p v now) (by omega)
      obtain ⟨hfT, hfU, hfE⟩ := gradeUpsert_frame db oid task_id p v now
      refine ⟨db', ?_, hC', hT'.trans hfT, hU'.trans hfU, hE'.trans hfE, ?_, ?_⟩
      · simp only [gradeLoop, hq, if_true, hs, Bool.false_eq_true, if_false, hv]
        rw [hqp]
        exact hrun
      · intro _
        by_cases hr : ∃ q' ∈ rest, q'.id = p
        · exact hmem hr
        · rw [hnmem hr]
          exact ⟨hc1, g, hg, hgv⟩
      · intro hn
        exact absurd ⟨q, List.mem_cons_self q rest, hqp⟩ hn

/-- The grade-notification loop touches only the notifications table and
the id counter. -/
theorem notifyGrades_frame (task : Task) (form : Nat → Option String) (now : Nat) :
    ∀ (ps : List User) (db : DB),
      (notifyGrades db task ps form now).grades = db.grades ∧
      (notifyGrades db task ps form now).tasks = db.tasks ∧
      (notifyGrades db task ps form now).users = db.users ∧
      (notifyGrades db task ps form now).enrollments = db.enrollments := by
  intro ps
  induction ps with
  | nil => intro db; exact ⟨rfl, rfl, rfl, rfl⟩
  | cons q rest ih =>
    intro db
    cases hf : form q.id with
    | none =>
      simp only [notifyGrades, hf]
      exact ih db
    | some s =>
      cases hbs : (s == "") with
      | true =>
        simp only [notifyGrades, hf, hbs, if_true]
        exact ih db
      | false =>
        simp only [notifyGrades, hf, hbs, Bool.false_eq_true, if_false]
        exact ih _

/-- Under the organizer-ownership guard, the POST branch of
`grade_participants` is the grading loop followed by the notification
loop. -/
theorem grade_participants_post (db : DB) (cu : User) (task_id : Nat)
    (form : Nat → Option String) (now : Nat) (task : Task)
    (hT : db.tasks.find? (fun t => t.id == task_id) = some task)
    (hrole : cu.role = "organizer") (hown : task.organizer_id = cu.id) :
    grade_participants db cu task_id true form now =
      (match gradeLoop db cu.id task_id (taskParticipants db task) form now with
      | Except.error e => Except.error e
      | Except.ok db1 =>
        Except.ok (notifyGrades db1 task (taskParticipants db task) form now,
          ["Оценки успешно обновлены!"], Resp.redirect "view_program")) := by
  have hg : (cu.role != "organizer" || task.organizer_id != cu.id) = false := by
    simp [hrole, hown]
  simp [grade_participants, hT, hg]

/-- The participant list depends only on the enrollments and users
tables. -/
theorem taskParticipants_congr (db db' : DB) (task : Task)
    (hE : db'.enrollments = db.enrollments) (hU : db'.users = db.users) :
    taskParticipants db' task = taskParticipants db task := by
  unfold taskParticipants
  rw [hE, hU]

/-- C5: `recordGrades` is idempotent per participant — posting the same
value `s` for participant `p` twice leaves exactly one `Grade` row keyed by
`(task_id, p)`, holding that value, not two rows. -/
theorem C5_grades_idempotent (db : DB) (cu : User) (task_id p : Nat)
    (s : String) (v : Int) (now1 now2 : Nat) (task : Task)
    (hT : db.tasks.find? (fun t => t.id == task_id) = some task)
    (hrole : cu.role = "organizer") (hown : task.organizer_id = cu.id)
    (hs : (s == "") = false) (hv : pyInt s = some v)
    (hmem : ∃ q ∈ taskParticipants db task, q.id = p)
    (hCount : gradeCount db task_id p ≤ 1) :
    ∃ db1 db2,
      grade_participants db cu task_id true (fun i => if i == p then some s else none) now1
        = Except.ok (db1, ["Оценки успешно обновлены!"], Resp.redirect "view_program") ∧
      grade_participants db1 cu task_id true (fun i => if i == p then some s else none) now2
        = Except.ok (db2, ["Оценки успешно обновлены!"], Resp.redirect "view_program") ∧
      gradeCount db2 task_id p = 1 ∧
      ∃ g, gradeFind db2 task_id p = some g ∧ g.value = v := by
  obtain ⟨dbl1, hrun1, hCl1, hlT1, hlU1, hlE1, hm1, _⟩ :=
    gradeLoop_single cu.id task_id p s v now1 hs hv (taskParticipants db task) db hCount
  obtain ⟨hnG1, hnT1, hnU1, hnE1⟩ :=
    notifyGrades_frame task (fun i => if i == p then some s else none) now1
      (taskParticipants db task) dbl1
  refine ⟨notifyGrades dbl1 task (taskParticipants db task)
      (fun i => if i == p then some s else none) now1, ?_⟩
  have hcall1 : grade_participants db cu task_id true
      (fun i => if i == p then some s else none) now1 =
      Except.ok (notifyGrades dbl1 task (taskParticipants db task)
        (fun i => if i == p then some s else none) now1,
        ["Оценки успешно обновлены!"], Resp.redirect "view_program") := by
    rw [grade_participants_post db cu task_id _ now1 task hT hrole hown, hrun1]
  have hT1 : (notifyGrades dbl1 task (taskParticipants db task)
      (fun i => if i == p then some s else none) now1).tasks.find?
      (fun t => t.id == task_id) = some task := by
    rw [hnT1, hlT1]; exact hT
  have hpart1 : taskParticipants (notifyGrades dbl1 task (taskParticipants db task)
      (fun i => if i == p then some s else none) now1) task = taskParticipants db task :=
    taskParticipants_congr db _ task (hnE1.trans hlE1) (hnU1.trans hlU1)
  have hcnt1 : gradeCount (notifyGrades dbl1 task (taskParticipants db task)
      (fun i => if i == p then some s else none) now1) task_id p =
      gradeCount dbl1 task_id p := by
    unfold gradeCount
    rw [hnG1]
  obtain ⟨hc1, _, _, _⟩ := hm1 hmem
  obtain ⟨dbl2, hrun2, hCl2, hlT2, hlU2, hlE2, hm2, _⟩ :=
    gradeLoop_single cu.id task_id p s v now2 hs hv
      (taskParticipants (notifyGrades dbl1 task (taskParticipants db task)
        (fun i => if i == p then some s else none) now1) task)
      (notifyGrades dbl1 task (taskParticipants db task)
        (fun i => if i == p then some s else none) now1)
      (by rw [hcnt1, hc1])
  obtain ⟨hnG2, _, _, _⟩ :=
    notifyGrades_frame task (fun i => if i == p then some s else none) now2
      (taskParticipants (notifyGrades dbl1 task (taskParticipants db task)
        (fun i => if i == p then some s else none) now1) task) dbl2
  refine ⟨notifyGrades dbl2 task
      (taskParticipants (notifyGrades dbl1 task (taskParticipants db task)
        (fun i => if i == p then some s else none) now1) task)
      (fun i => if i == p then some s else none) now2, hcall1, ?_, ?_, ?_⟩
  · rw [grade_participants_post _ cu task_id _ now2 task hT1 hrole hown, hrun2]
  · obtain ⟨hc2, _⟩ := hm2 (by rw [hpart1]; exact hmem)
    unfold gradeCount
    rw [hnG2]
    unfold gradeCount at hc2
    exact hc2
  · obtain ⟨_, g2, hg2, hgv2⟩ := hm2 (by rw [hpart1]; exact hmem)
    refine ⟨g2, ?_, hgv2⟩
    unfold gradeFind
    rw [hnG2]
    unfold gradeFind at hg2
    exact hg2

/-- Witness for C5: the concrete organizer grades the concrete enrolled
participant with value 85 twice. -/
theorem C5_grades_idempotent_witness :
    dbW.tasks.find? (fun t => t.id == 4) = some taskW ∧
    orgW.role = "organizer" ∧
    taskW.organizer_id = orgW.id ∧
    (("85" == "") = false) ∧
    pyInt "85" = some 85 ∧
    (∃ q ∈ taskParticipants dbW taskW, q.id = 2) ∧
    gradeCount dbW 4 2 ≤ 1 ∧
    (∃ db1 db2,
      grade_participants dbW orgW 4 true (fun i => if i == 2 then some "85" else none) 200
        = Except.ok (db1, ["Оценки успешно обновлены!"], Resp.redirect "view_program") ∧
      grade_participants db1 orgW 4 true (fun i => if i == 2 then some "85" else none) 210
        = Except.ok (db2, ["Оценки успешно обновлены!"], Resp.redirect "view_program") ∧
      gradeCount db2 4 2 = 1 ∧
      ∃ g, gradeFind db2 4 2 = some g ∧ g.value = 85) :=
  ⟨by decide, by decide, by decide, by decide, by decide, by decide, by decide,
    C5_grades_idempotent dbW orgW 4 2 "85" 85 200 210 taskW
      (by decide) (by decide) (by decide) (by decide) (by decide) (by decide) (by decide)⟩

/-- C6: with a valid form, `add_task_feedback` fails with the not-found
outcome — leaving the store unchanged — exactly when no submission row
exists for `(task_id, participant_id)`; with a prior submission it
succeeds and upserts the feedback row: an insert sets `created_at` and
`updated_at` together, an update refreshes only `updated_at`. -/
theorem C6_feedback_requires_submission (db : DB) (cu : User)
    (task_id participant_id : Nat) (feedback_text : String) (r : Int) (now : Nat)
    (task : Task) (u : User)
    (hT : db.tasks.find? (fun t => t.id == task_id) = some task)
    (hU : db.users.find? (fun x => x.id == participant_id) = some u)
    (hrole : cu.role = "organizer") (hown : task.organizer_id = cu.id)
    (htext : blankString feedback_text = false) (hr : (r == 0) = false) :
    (subFind db task_id participant_id = none →
      add_task_feedback db cu task_id participant_id feedback_text (some r) now
        = (db, [], Resp.notFound)) ∧
    (∀ s0, subFind db task_id participant_id = some s0 →
      (add_task_feedback db cu task_id participant_id feedback_text (some r) now).2.1
        = ["Отзыв успешно сохранен!"] ∧
      ∃ f, fbFind (add_task_feedback db cu task_id participant_id feedback_text
          (some r) now).1 task_id participant_id = some f ∧
        f.feedback_text = feedback_text ∧ f.rating = r ∧ f.updated_at = now ∧
        (∀ f0, fbFind db task_id participant_id = some f0 → f.created_at = f0.created_at) ∧
        (fbFind db task_id participant_id = none → f.created_at = now)) := by
  have hg : (cu.role != "organizer" || task.organizer_id != cu.id) = false := by
    simp [hrole, hown]
  constructor
  · intro hS
    unfold subFind at hS
    simp [add_task_feedback, hT, hU, hg, hS]
  · intro s0 hS
    unfold subFind at hS
    cases hF : db.feedbacks.find?
        (fun f => f.task_id == task_id && f.participant_id == participant_id) with
    | some f0 =>
      have hres : add_task_feedback db cu task_id participant_id feedback_text (some r) now
          = (create_notification
              { db with feedbacks :=
                  (updateFirst
                    (fun f => f.task_id == task_id && f.participant_id == participant_id)
                    (fun f => { f with feedback_text := feedback_text, rating := r,
                                       updated_at := now })
                    db.feedbacks) }
              participant_id
              ("Организатор оставил отзыв на вашу задачу \"" ++ task.title ++ "\"")
              "feedback" (some task_id) now,
             ["Отзыв успешно сохранен!"], Resp.redirect "view_task_submissions") := by
        simp [add_task_feedback, hT, hU, hg, hS, htext, hr, hF]
      rw [hres]
      refine ⟨rfl, ?_⟩
      unfold fbFind create_notification
      dsimp only
      rw [find?_updateFirst _ _ _ (fun x hx => by simpa using hx), hF]
      refine ⟨_, rfl, rfl, rfl, rfl, ?_, ?_⟩
      · intro f0' hf0'
        cases Option.some.inj hf0'
        rfl
      · intro hnone
        exact Option.noConfusion hnone
    | none =>
      have hres : add_task_feedback db cu task_id participant_id feedback_text (some r) now
          = (create_notification
              { db with
                feedbacks := db.feedbacks ++
                  [{ id := db.next_id, task_id := task_id,
                     participant_id := participant_id, organizer_id := cu.id,
                     feedback_text := feedback_text, rating := r,
                     created_at := now, updated_at := now }],
                next_id := db.next_id + 1 }
              participant_id
              ("Организатор оставил отзыв на вашу задачу \"" ++ task.title ++ "\"")
              "feedback" (some task_id) now,
             ["Отзыв успешно сохранен!"], Resp.redirect "view_task_submissions") := by
        simp [add_task_feedback, hT, hU, hg, hS, htext, hr, hF]
      rw [hres]
      refine ⟨rfl, ?_⟩
      unfold fbFind create_notification
      dsimp only
      rw [List.find?_append, hF]
      simp only [Option.none_or]
      refine ⟨{ id := db.next_id, task_id := task_id, participant_id := participant_id,
                organizer_id := cu.id, feedback_text := feedback_text, rating := r,
                created_at := now, updated_at := now }, ?_, rfl, rfl, rfl, ?_, ?_⟩
      · simp
      · intro f0' hf0'
        exact Option.noConfusion hf0'
      · intro _
        rfl

/-- Witness for C6: the concrete organizer leaves feedback with rating 5 on
the concrete submission. -/
theorem C6_feedback_requires_submission_witness :
    dbSubW.tasks.find? (fun t => t.id == 4) = some taskW ∧
    dbSubW.users.find? (fun x => x.id == 2) = some partW ∧
    orgW.role = "organizer" ∧
    taskW.organizer_id = orgW.id ∧
    blankString "Хорошо" = false ∧
    (((5 : Int) == 0) = false) ∧
    ((subFind dbSubW 4 2 = none →
      add_task_feedback dbSubW orgW 4 2 "Хорошо" (some 5) 300
        = (dbSubW, [], Resp.notFound)) ∧
    (∀ s0, subFind dbSubW 4 2 = some s0 →
      (add_task_feedback dbSubW orgW 4 2 "Хорошо" (some 5) 300).2.1
        = ["Отзыв успешно сохранен!"] ∧
      ∃ f, fbFind (add_task_feedback dbSubW orgW 4 2 "Хорошо" (some 5) 300).1 4 2
          = some f ∧
        f.feedback_text = "Хорошо" ∧ f.rating = 5 ∧ f.updated_at = 300 ∧
        (∀ f0, fbFind dbSubW 4 2 = some f0 → f.created_at = f0.created_at) ∧
        (fbFind dbSubW 4 2 = none → f.created_at = 300))) :=
  ⟨by decide, by decide, by decide, by decide, by decide, by decide,
    C6_feedback_requires_submission dbSubW orgW 4 2 "Хорошо" 5 300 taskW partW
      (by decide) (by decide) (by decide) (by decide) (by decide) (by decide)⟩

/-- C3 evaluated on the code: with a prior submission present, a rating of
6 — outside the documented 1-5 range — passes `TaskFeedbackForm`
validation (which consists of `DataRequired` only) and is persisted in the
feedback row; the handler flashes success instead of reporting a
validation failure. -/
theorem C3_out_of_range_rating_persisted :
    (add_task_feedback dbSubW orgW 4 2 "Хорошая работа" (some 6) 300).2.1
      = ["Отзыв успешно сохранен!"] ∧
    fbFind (add_task_feedback dbSubW orgW 4 2 "Хорошая работа" (some 6) 300).1 4 2
      = some { id := 7, task_id := 4, participant_id := 2, organizer_id := 1,
               feedback_text := "Хорошая работа", rating := 6,
               created_at := 300, updated_at := 300 } := by
  constructor
  · rfl
  · rfl

/-- C7: a call to an organizer-only mutation by a caller who is not an
organizer or does not own the target — `create_task` on a program,
`grade_participants` on a task — performs no state change and yields only
a redirect to the neutral home page, not a distinguishable error. -/
theorem C7_unauthorized_mutation_noop (db : DB) (cu : User)
    (program_id task_id : Nat) (program : Program) (task : Task)
    (title description category : String) (due_date_data : Option String)
    (form : Nat → Option String) (now : Nat)
    (hP : db.programs.find? (fun p => p.id == program_id) = some program)
    (hT : db.tasks.find? (fun t => t.id == task_id) = some task)
    (hnp : cu.role ≠ "organizer" ∨ program.organizer_id ≠ cu.id)
    (hnt : cu.role ≠ "organizer" ∨ task.organizer_id ≠ cu.id) :
    create_task db cu program_id title description category due_date_data now
      = (db, [], Resp.redirect "home") ∧
    grade_participants db cu task_id true form now
      = Except.ok (db, [], Resp.redirect "home") := by
  have hgp : (cu.role != "organizer" || program.organizer_id != cu.id) = true := by
    rcases hnp with h | h <;> simp [h]
  have hgt : (cu.role != "organizer" || task.organizer_id != cu.id) = true := by
    rcases hnt with h | h <;> simp [h]
  constructor
  · simp [create_task, hP, hgp]
  · simp [grade_participants, hT, hgt]

/-- Witness for C7: the concrete participant attempts `create_task` and
`grade_participants` on the organizer's program and task. -/
theorem C7_unauthorized_mutation_noop_witness :
    dbW.programs.find? (fun p => p.id == 3) = some progW ∧
    dbW.tasks.find? (fun t => t.id == 4) = some taskW ∧
    (partW.role ≠ "organizer" ∨ progW.organizer_id ≠ partW.id) ∧
    (partW.role ≠ "organizer" ∨ taskW.organizer_id ≠ partW.id) ∧
    (create_task dbW partW 3 "Задача" "" "homework" none 200
      = (dbW, [], Resp.redirect "home") ∧
    grade_participants dbW partW 4 true (fun _ => none) 200
      = Except.ok (dbW, [], Resp.redirect "home")) :=
  ⟨by decide, by decide, Or.inl (by decide), Or.inl (by decide),
    C7_unauthorized_mutation_noop dbW partW 3 4 progW taskW "Задача" "" "homework" none
      (fun _ => none) 200 (by decide) (by decide)
      (Or.inl (by decide)) (Or.inl (by decide))⟩

/-- C9: the grading operation is partial — when the submitted grade field
for an enrolled participant is the non-numeric string "abc", the `int()`
conversion raises an unhandled `ValueError` and `grade_participants` does
not return a normal response. -/
theorem C9_unparsable_grade_raises :
    grade_participants dbW orgW 4 true (fun i => if i == 2 then some "abc" else none) 200
      = Except.error "invalid literal for int() with base 10: abc" := by
  rfl

/-! ### `view_notifications`: step lemmas -/

/-- The store returned by `view_notifications`: every currently-unread
notification of the viewing user flipped to read. -/
theorem view_notifications_fst (db : DB) (cu : User) :
    (view_notifications db cu).1.notifications =
      db.notifications.map
        (fun n => if n.user_id == cu.id && !n.is_read then { n with is_read := true } else n) :=
  rfl

/-- The list displayed by `view_notifications`: the user's notifications
sorted by `created_at` descending. -/
theorem view_notifications_snd (db : DB) (cu : User) :
    (view_notifications db cu).2 =
      List.insertionSort (fun a b => b.created_at ≤ a.created_at)
        (db.notifications.filter (fun n => n.user_id == cu.id)) :=
  rfl

/-- C8: `view_notifications` returns all of the user's notifications
ordered by creation time descending and, as a side effect, marks every
currently-unread notification of that user as read; the separate unread
count — a pure query — then returns 0. -/
theorem C8_notifications_mark_read (db : DB) (cu : User) :
    List.Perm (view_notifications db cu).2
      (db.notifications.filter (fun n => n.user_id == cu.id)) ∧
    List.Sorted (fun a b : Notification => b.created_at ≤ a.created_at)
      (view_notifications db cu).2 ∧
    (∀ n ∈ (view_notifications db cu).1.notifications,
      n.user_id = cu.id → n.is_read = true) ∧
    get_unread_notification_count (view_notifications db cu).1 cu = 0 := by
  refine ⟨?_, ?_, ?_, ?_⟩
  · rw [view_notifications_snd]
    exact List.perm_insertionSort _ _
  · haveI : IsTotal Notification (fun a b => b.created_at ≤ a.created_at) :=
      ⟨fun a b => Nat.le_total b.created_at a.created_at⟩
    haveI : IsTrans Notification (fun a b => b.created_at ≤ a.created_at) :=
      ⟨fun a b c hab hbc => Nat.le_trans hbc hab⟩
    rw [view_notifications_snd]
    exact List.sorted_insertionSort _ _
  · intro n hn hu
    rw [view_notifications_fst] at hn
    obtain ⟨n0, hn0, rfl⟩ := List.mem_map.mp hn
    cases hb : (n0.user_id == cu.id && !n0.is_read) with
    | true => simp [hb]
    | false =>
      simp only [hb, Bool.false_eq_true, if_false] at hu ⊢
      have hbeq : (n0.user_id == cu.id) = true := by simp [hu]
      rw [hbeq] at hb
      simpa using hb
  · unfold get_unread_notification_count
    rw [view_notifications_fst, List.filter_map, List.length_map, List.length_eq_zero,
      List.filter_eq_nil_iff]
    intro n0 hn0
    cases hb : (n0.user_id == cu.id && !n0.is_read) with
    | true => simp [Function.comp, hb]
    | false => simp [Function.comp, hb]

/-- Witness for C8 at a concrete store: after viewing, the concrete
organizer's unread count is 0 and the displayed list is the full, sorted
notification list. -/
theorem C8_notifications_mark_read_witness :
    List.Perm (view_notifications dbSubW orgW).2
      (dbSubW.notifications.filter (fun n => n.user_id == orgW.id)) ∧
    List.Sorted (fun a b : Notification => b.created_at ≤ a.created_at)
      (view_notifications dbSubW orgW).2 ∧
    (∀ n ∈ (view_notifications dbSubW orgW).1.notifications,
      n.user_id = orgW.id → n.is_read = true) ∧
    get_unread_notification_count (view_notifications dbSubW orgW).1 orgW = 0 :=
  C8_notifications_mark_read dbSubW orgW

end App
